import Mathlib

/-!
Verification development for a Star Citizen log-tailing and event-parsing
engine (`event_parser.py` and `log_monitor.py`).

The Python code is shallowly embedded: every regular expression in the
source is hand-compiled into an executable, deterministic matching
function over `List Char`, following Python `re` semantics (leftmost
match, lazy `.*?` as a forward scan, greedy character classes whose
alphabet is disjoint from what follows, so no residual backtracking).
Case-insensitive matching is modelled with ASCII `Char.toLower`, which
agrees with Python on the ASCII inputs the log format uses.  Byte offsets
are modelled as character offsets (the log is ASCII).  The wall-clock
fallback of timestamp extraction is made explicit by threading a `now`
string parameter through `parse_line`, keeping the embedding pure.
-/

abbrev Chars := List Char

/-- The character `'` (code 39), kept as a named constant. -/
def quoteChar : Char := Char.ofNat 39

/-- A one-character string holding `quoteChar`. -/
def apos : String := String.mk [quoteChar]

/-- Wrap a string in single quotes, for building concrete log lines. -/
def q (s : String) : String := apos ++ s ++ apos

/-- Chars of a list as a `String`. -/
def toStr (cs : Chars) : String := String.mk cs

/-- ASCII lower-casing of a character list (models Python `str.lower()`). -/
def lowerChars (s : Chars) : Chars := s.map Char.toLower

/-- ASCII lower-casing of a string. -/
def lowerS (s : String) : String := toStr (lowerChars s.data)

/-- Strip whitespace from both ends (models Python `str.strip()`). -/
def trimChars (s : Chars) : Chars :=
  ((s.dropWhile Char.isWhitespace).reverse.dropWhile Char.isWhitespace).reverse

/-- `str.strip()` on strings. -/
def stripS (s : String) : String := toStr (trimChars s.data)

/-- Match a literal pattern (already lower-cased) case-insensitively at the
head of the input; return the rest on success. -/
def ciLitGo : Chars → Chars → Option Chars
  | [], s => some s
  | _ :: _, [] => none
  | p :: ps, c :: cs => if c.toLower = p then ciLitGo ps cs else none

/-- Case-insensitive literal at the head of the input. The pattern string
is written lower-case. -/
def ciLit (pat : String) (s : Chars) : Option Chars := ciLitGo pat.data s

/-- Case-sensitive literal at the head of the input. -/
def csLitGo : Chars → Chars → Option Chars
  | [], s => some s
  | _ :: _, [] => none
  | p :: ps, c :: cs => if c = p then csLitGo ps cs else none

/-- Try a head-anchored matcher at every suffix, leftmost first.  This is
the embedding of `re.search` / lazy `.*?`. -/
def scan {α : Type} (m : Chars → Option α) : Chars → Option α
  | [] => m []
  | c :: cs =>
    match m (c :: cs) with
    | some r => some r
    | none => scan m cs

/-- Case-insensitive substring containment: Python `pat.lower() in s.lower()`. -/
def ciContains (s pat : Chars) : Bool := (scan (ciLitGo (lowerChars pat)) s).isSome

/-- Case-sensitive substring containment: Python `pat in s`. -/
def csContains (s pat : Chars) : Bool := (scan (csLitGo pat) s).isSome

/-- Drop leading whitespace: the embedding of `\s*` followed by a
non-whitespace continuation. -/
def dropWs (s : Chars) : Chars := s.dropWhile Char.isWhitespace

/-- Require at least one whitespace character, then drop the maximal run:
the embedding of `\s+` followed by a non-whitespace continuation. -/
def wsPlus (s : Chars) : Option Chars :=
  match s with
  | c :: cs => if c.isWhitespace then some (dropWs cs) else none
  | [] => none

/-- Take a maximal non-empty run of characters satisfying `p`: the
embedding of a greedy `X+` whose class is disjoint from what follows. -/
def runNonempty (p : Char → Bool) (s : Chars) : Option (Chars × Chars) :=
  match s.takeWhile p with
  | [] => none
  | r => some (r, s.dropWhile p)

/-- Split at the first `'`: returns the chars before it and the chars
after it, or `none` when no quote exists. -/
def splitAtQuote : Chars → Option (Chars × Chars)
  | [] => none
  | c :: cs =>
    if c = quoteChar then some ([], cs)
    else
      match splitAtQuote cs with
      | some (a, b) => some (c :: a, b)
      | none => none

/-- The embedding of `'([^']+)'` at the head of the input: an opening
quote, a non-empty capture, a closing quote. -/
def quotedNonempty (s : Chars) : Option (Chars × Chars) :=
  match s with
  | c :: cs =>
    if c = quoteChar then
      match splitAtQuote cs with
      | some (cap, rest) => if cap.isEmpty then none else some (cap, rest)
      | none => none
    else none
  | [] => none

/-- The embedding of `'([^']*)'` at the head of the input: the capture may
be empty. -/
def quotedAny (s : Chars) : Option (Chars × Chars) :=
  match s with
  | c :: cs => if c = quoteChar then splitAtQuote cs else none
  | [] => none

/-- Consume one character from the given set: the embedding of a
one-character class such as `[=:]`. -/
def charOf (set : String) (s : Chars) : Option Chars :=
  match s with
  | c :: cs => if set.data.contains c then some cs else none
  | [] => none

/-- Exactly one character equal to `c0`. -/
def litChar (c0 : Char) : Chars → Option Chars
  | c :: cs => if c = c0 then some cs else none
  | [] => none

/-- Word characters for `\w` (ASCII model). -/
def isWordChar (c : Char) : Bool := c.isAlphanum || c == '_'

/-! ## Static lookup tables (from `event_parser.py`) -/

/-- `NPC_PATTERNS`: known NPC name substrings, in source order. -/
def NPC_PATTERNS : List String :=
  ["NPC_", "npc_", "PU_", "pu_", "Kopion", "Pirate", "Criminal", "Guard",
   "Security", "UEE_", "Vanduul", "XenoThreat", "Nine_Tails", "ninetails",
   "jpt_", "crim_", "hostage", "civilian", "pilot_", "_AI_", "outlaw",
   "bounty_", "mission_", "merc_", "Turret", "turret"]

/-- `VEHICLE_NAMES`: manufacturer prefix → friendly name, in source
(dict-insertion) order. -/
def VEHICLE_NAMES : List (String × String) :=
  [("ORIG", "Origin"), ("ANVL", "Anvil"), ("AEGS", "Aegis"), ("DRAK", "Drake"),
   ("MISC", "MISC"), ("RSI", "RSI"), ("CNOU", "C.O."), ("ARGO", "Argo"),
   ("BANU", "Banu"), ("XIAN", "Xi" ++ apos ++ "an"), ("GAMA", "Gatac"),
   ("KRIG", "Kruger"), ("TMBL", "Tumbril"), ("VNCL", "Vanduul"),
   ("CRUS", "Crusader")]

/-- `SHIP_LOOKUP`: ship-model substring → friendly name, in source
(dict-insertion) order. -/
def SHIP_LOOKUP : List (String × String) :=
  [("Gladius", "Gladius"), ("Arrow", "Arrow"), ("Hornet", "Hornet"),
   ("Sabre", "Sabre"), ("Vanguard", "Vanguard"), ("Eclipse", "Eclipse"),
   ("Retaliator", "Retaliator"), ("Hammerhead", "Hammerhead"),
   ("Carrack", "Carrack"), ("Cutlass", "Cutlass"), ("Freelancer", "Freelancer"),
   ("Caterpillar", "Caterpillar"), ("Herald", "Herald"), ("Buccaneer", "Buccaneer"),
   ("Constellation", "Constellation"), ("Valkyrie", "Valkyrie"),
   ("Reclaimer", "Reclaimer"), ("Starfarer", "Starfarer"), ("890", "890 Jump"),
   ("Avenger", "Avenger"), ("Titan", "Titan"), ("Stalker", "Stalker"),
   ("Warlock", "Warlock"), ("Mustang", "Mustang"), ("Aurora", "Aurora"),
   ("Pisces", "Pisces"), ("Mercury", "Mercury Star Runner"),
   ("Terrapin", "Terrapin"), ("Prospector", "Prospector"), ("Mole", "MOLE"),
   ("Vulture", "Vulture"), ("Spirit", "Spirit"), ("Scorpius", "Scorpius"),
   ("Redeemer", "Redeemer"), ("Paladin", "Paladin"), ("Zeus", "Zeus")]

/-! ## Name heuristics -/

/-- The shape `^[A-Za-z]+_[A-Za-z]+_\d+` from `is_npc` (anchored
`re.match`; letters, underscore, letters, underscore, at least one
digit). -/
def matchNpcShape (s : Chars) : Option Unit := do
  let (_, r1) ← runNonempty Char.isAlpha s
  let r2 ← litChar '_' r1
  let (_, r3) ← runNonempty Char.isAlpha r2
  let r4 ← litChar '_' r3
  let (_, _) ← runNonempty Char.isDigit r4
  pure ()

/-- `is_npc(name)`: empty names are not NPCs; otherwise any
`NPC_PATTERNS` substring (case-insensitive) or the
`Word_Word_Digits` shape marks an NPC. -/
def is_npc (name : String) : Bool :=
  if name = "" then false
  else if NPC_PATTERNS.any (fun p => ciContains name.data p.data) then true
  else (matchNpcShape name.data).isSome

/-- Split on a separator character, keeping empty segments: Python
`str.split(sep)`. -/
def splitOnChar (sep : Char) (s : Chars) : List Chars := go [] s
where
  go (acc : Chars) : Chars → List Chars
    | [] => [acc.reverse]
    | c :: cs => if c = sep then acc.reverse :: go [] cs else go (c :: acc) cs

/-- `extract_ship_name(zone_or_id)`: first the `SHIP_LOOKUP`
substring table (case-insensitive, first entry in table order wins), then
the `VEHICLE_NAMES` manufacturer-prefix table (case-sensitive
`startswith(prefix + "_")`, synthesizing `"<mfr> <second component>"`,
stripped). -/
def extract_ship_name (zone_or_id : String) : Option String :=
  if zone_or_id = "" then none
  else
    match SHIP_LOOKUP.find? (fun kv => ciContains zone_or_id.data kv.1.data) with
    | some kv => some kv.2
    | none =>
      match VEHICLE_NAMES.find? (fun kv => (kv.1 ++ "_").data.isPrefixOf zone_or_id.data) with
      | some kv =>
        let remainder :=
          if zone_or_id.data.contains '_' then
            toStr ((splitOnChar '_' zone_or_id.data).getD 1 [])
          else ""
        some (stripS (kv.2 ++ " " ++ remainder))
      | none => none

/-! ## Timestamp extraction -/

/-- Exactly `n` digits at the head of the input (the embedding of
`\d{n}` followed by a non-digit literal). -/
def nDigits : Nat → Chars → Option (Chars × Chars)
  | 0, s => some ([], s)
  | _ + 1, [] => none
  | n + 1, c :: cs =>
    if c.isDigit then (nDigits n cs).map (fun dr => (c :: dr.1, dr.2)) else none

/-- The captured components of the anchored timestamp pattern
`<(\d{4}-\d{2}-\d{2}T\d{2}:\d{2}:\d{2})`. -/
structure TsParts where
  year : Chars
  month : Chars
  day : Chars
  hour : Chars
  minute : Chars
  second : Chars
deriving DecidableEq

/-- The anchored `re.match` of `extract_timestamp` (case-sensitive). -/
def tsMatch (s : Chars) : Option TsParts := do
  let a ← litChar '<' s
  let (yr, b) ← nDigits 4 a
  let c0 ← litChar '-' b
  let (mo, d0) ← nDigits 2 c0
  let e0 ← litChar '-' d0
  let (dy, f0) ← nDigits 2 e0
  let g0 ← litChar 'T' f0
  let (hr, h0) ← nDigits 2 g0
  let i0 ← litChar ':' h0
  let (mi, j0) ← nDigits 2 i0
  let k0 ← litChar ':' j0
  let (sc, _) ← nDigits 2 k0
  pure ⟨yr, mo, dy, hr, mi, sc⟩

/-- Numeric value of a digit string. -/
def natOfDigits (ds : Chars) : Nat := ds.foldl (fun acc c => acc * 10 + (c.toNat - 48)) 0

/-- Gregorian leap year. -/
def isLeap (y : Nat) : Bool := y % 4 == 0 && (y % 100 != 0 || y % 400 == 0)

/-- Days in a month. -/
def daysInMonth (y mo : Nat) : Nat :=
  if mo = 2 then (if isLeap y then 29 else 28)
  else if mo = 4 ∨ mo = 6 ∨ mo = 9 ∨ mo = 11 then 30
  else 31

/-- Validity of the matched timestamp: `datetime.fromisoformat` raises
`ValueError` exactly when a component is out of range. -/
def validDT (p : TsParts) : Bool :=
  let y := natOfDigits p.year
  let mo := natOfDigits p.month
  let d := natOfDigits p.day
  decide (1 ≤ y) && decide (1 ≤ mo) && decide (mo ≤ 12) &&
  decide (1 ≤ d) && decide (d ≤ daysInMonth y mo) &&
  decide (natOfDigits p.hour ≤ 23) && decide (natOfDigits p.minute ≤ 59) &&
  decide (natOfDigits p.second ≤ 59)

/-- `extract_timestamp(line)`: a valid leading bracketed timestamp is
reformatted as `HH:MM:SS` (which, the components being two zero-padded
digits each, reproduces the captured characters); otherwise the current
wall-clock string `now` — threaded explicitly to keep the function
pure — is substituted. -/
def extract_timestamp (now : String) (line : String) : String :=
  match tsMatch line.data with
  | some p =>
    if validDT p then toStr p.hour ++ ":" ++ toStr p.minute ++ ":" ++ toStr p.second
    else now
  | none => now

/-! ## Event regex embeddings

Each `...At` function is the head-anchored body of a pattern; wrapping it
in `scan` gives the `re.search` behaviour.  Inner lazy `.*?` segments are
themselves `scan`s; for these patterns an inner failure at every later
position implies failure at every later outer position (match end
positions are monotone in start positions), so nested forward scans agree
with Python backtracking. -/

/-- Captures of the actor-death patterns: groups 1-4 of
`RE_ACTOR_DEATH` (group 4 absent for `RE_ACTOR_DEATH_ALT`). -/
structure DeathMatch where
  victim : Chars
  killer : Chars
  damage : Option Chars
  zone : Option Chars
deriving DecidableEq

/-- `CActor::Kill:\s*'([^']+)'` at the head. -/
def deathInner1 (s : Chars) : Option (Chars × Chars) := do
  let s1 ← ciLit "cactor::kill:" s
  quotedNonempty (dropWs s1)

/-- `killed by\s*'([^']+)'` at the head. -/
def killedByInner (s : Chars) : Option (Chars × Chars) := do
  let s1 ← ciLit "killed by" s
  quotedNonempty (dropWs s1)

/-- `with\s+damage\s+type\s*'([^']*)'` at the head. -/
def damageInner1 (s : Chars) : Option (Chars × Chars) := do
  let a ← ciLit "with" s
  let b ← wsPlus a
  let c0 ← ciLit "damage" b
  let d0 ← wsPlus c0
  let e0 ← ciLit "type" d0
  quotedAny (dropWs e0)

/-- `in\s+zone\s*'([^']*)'` at the head. -/
def zoneInner (s : Chars) : Option (Chars × Chars) := do
  let a ← ciLit "in" s
  let b ← wsPlus a
  let c0 ← ciLit "zone" b
  quotedAny (dropWs c0)

/-- `RE_ACTOR_DEATH` anchored at the head:
`<Actor Death>.*?CActor::Kill:\s*'([^']+)'.*?killed by\s*'([^']+)'`
with optional damage-type and zone groups. -/
def deathPrimaryAt (s : Chars) : Option DeathMatch := do
  let s0 ← ciLit "<actor death>" s
  let (v, s1) ← scan deathInner1 s0
  let (k, s2) ← scan killedByInner s1
  let (dOpt, s3) :=
    match scan damageInner1 s2 with
    | some (d, r) => (some d, r)
    | none => (none, s2)
  let zOpt :=
    match scan zoneInner s3 with
    | some (z, _) => some z
    | none => none
  pure ⟨v, k, dOpt, zOpt⟩

/-- `RE_ACTOR_DEATH.search`. -/
def deathPrimary (line : Chars) : Option DeathMatch := scan deathPrimaryAt line

/-- `'([^']+)'\s+killed\s+by\s+'([^']+)'` at the head. -/
def deathAltInner (s : Chars) : Option ((Chars × Chars) × Chars) := do
  let (v, s1) ← quotedNonempty s
  let s2 ← wsPlus s1
  let s3 ← ciLit "killed" s2
  let s4 ← wsPlus s3
  let s5 ← ciLit "by" s4
  let s6 ← wsPlus s5
  let (k, s7) ← quotedNonempty s6
  pure ((v, k), s7)

/-- `damage[_ ]type[=:]\s*'?([^'\s,]+)` at the head.  When the optional
quote is consumed the token may not start with a quote anyway, so the
greedy `'?` never needs backtracking. -/
def deathAltDamage (s : Chars) : Option Chars := do
  let a ← ciLit "damage" s
  let b ← charOf "_ " a
  let c0 ← ciLit "type" b
  let d0 ← charOf "=:" c0
  let e0 := dropWs d0
  let f0 :=
    match e0 with
    | x :: xs => if x = quoteChar then xs else e0
    | [] => e0
  let (tok, _) ← runNonempty (fun ch => !(ch == quoteChar || ch.isWhitespace || ch == ',')) f0
  pure tok

/-- `RE_ACTOR_DEATH_ALT` anchored at the head. -/
def deathAltAt (s : Chars) : Option DeathMatch := do
  let s0 ← ciLit "<actor death>" s
  let (vk, s1) ← scan deathAltInner s0
  pure ⟨vk.1, vk.2, scan deathAltDamage s1, none⟩

/-- `RE_ACTOR_DEATH_ALT.search`. -/
def deathAlt (line : Chars) : Option DeathMatch := scan deathAltAt line

/-- The death-pattern cascade of `parse_line`: primary first, the looser
alternative pattern second. -/
def deathSearch (line : Chars) : Option DeathMatch :=
  match deathPrimary line with
  | some m => some m
  | none => deathAlt line

/-- `level\s*(\d+)\s*(?:to|->)\s*(\d+)` at the head. -/
def levelInner (s : Chars) : Option (Chars × Chars) := do
  let a ← ciLit "level" s
  let (d1, b) ← runNonempty Char.isDigit (dropWs a)
  let c0 := dropWs b
  let c1 ←
    match ciLit "to" c0 with
    | some r => some r
    | none => ciLit "->" c0
  let (d2, _) ← runNonempty Char.isDigit (dropWs c1)
  pure (d1, d2)

/-- `RE_VEHICLE_DESTROY` anchored at the head:
`<Vehicle Destruction>.*?'([^']+)'.*?level\s*(\d+)\s*(?:to|->)\s*(\d+)`.
Returns (vehicle id, from-level digits, to-level digits). -/
def vehiclePrimaryAt (s : Chars) : Option (Chars × Chars × Chars) := do
  let s0 ← ciLit "<vehicle destruction>" s
  let (vid, s1) ← scan quotedNonempty s0
  let lv ← scan levelInner s1
  pure (vid, lv.1, lv.2)

/-- `RE_VEHICLE_DESTROY.search`. -/
def vehiclePrimary (line : Chars) : Option (Chars × Chars × Chars) :=
  scan vehiclePrimaryAt line

/-- `RE_VEHICLE_DESTROY_ALT` anchored at the head:
`<Vehicle Destruction>.*?'([^']+)'`. -/
def vehicleAltAt (s : Chars) : Option Chars := do
  let s0 ← ciLit "<vehicle destruction>" s
  let (vid, _) ← scan quotedNonempty s0
  pure vid

/-- `RE_VEHICLE_DESTROY_ALT.search`. -/
def vehicleAlt (line : Chars) : Option Chars := scan vehicleAltAt line

/-- `RE_CORPSE` anchored at the head: `<Corpse>.*?'([^']+)'`. -/
def corpseAt (s : Chars) : Option Chars := do
  let s0 ← ciLit "<corpse>" s
  let (n, _) ← scan quotedNonempty s0
  pure n

/-- `RE_CORPSE.search`. -/
def corpseSearch (line : Chars) : Option Chars := scan corpseAt line

/-- `from\s+(\w+)\s+to\s+(\w+)` at the head. -/
def jumpInner (s : Chars) : Option (Chars × Chars) := do
  let a ← ciLit "from" s
  let b ← wsPlus a
  let (w1, c0) ← runNonempty isWordChar b
  let d0 ← wsPlus c0
  let e0 ← ciLit "to" d0
  let f0 ← wsPlus e0
  let (w2, _) ← runNonempty isWordChar f0
  pure (w1, w2)

/-- `RE_JUMP` anchored at the head:
`<Jump Drive Changing State>.*?from\s+(\w+)\s+to\s+(\w+)`. -/
def jumpAt (s : Chars) : Option (Chars × Chars) := do
  let s0 ← ciLit "<jump drive changing state>" s
  scan jumpInner s0

/-- `RE_JUMP.search`. -/
def jumpSearch (line : Chars) : Option (Chars × Chars) := scan jumpAt line

/-- `Server\s+disconnect` at the head. -/
def serverDisconnectAt (s : Chars) : Option Chars := do
  let a ← ciLit "server" s
  let b ← wsPlus a
  ciLit "disconnect" b

/-- `RE_DISCONNECT`: the alternation
`<Disconnect>|disconnect|CNetworkError|Server\s+disconnect`, as a
boolean search. -/
def disconnectMatches (line : Chars) : Bool :=
  ciContains line "<disconnect>".data || ciContains line "disconnect".data ||
  ciContains line "cnetworkerror".data || (scan serverDisconnectAt line).isSome

/-- `RE_STALL`: `<Actor Stall>|ActorStall`. -/
def stallMatches (line : Chars) : Bool :=
  ciContains line "<actor stall>".data || ciContains line "actorstall".data

/-- `RE_WEAPON` anchored at the head: `weapon[=:]\s*'?([^'\s,;]+)`. -/
def weaponAt (s : Chars) : Option Chars := do
  let a ← ciLit "weapon" s
  let b ← charOf "=:" a
  let c0 := dropWs b
  let d0 :=
    match c0 with
    | x :: xs => if x = quoteChar then xs else c0
    | [] => c0
  let (tok, _) ← runNonempty
    (fun ch => !(ch == quoteChar || ch.isWhitespace || ch == ',' || ch == ';')) d0
  pure tok

/-- `RE_WEAPON.search`. -/
def weaponSearch (line : Chars) : Option Chars := scan weaponAt line

/-- `RE_DIRECTION` anchored at the head: `direction[=:]\s*\(?([^)]+)\)?`.
The optional `\(?` backtracks only when nothing capturable follows the
parenthesis, in which case the capture starts at the parenthesis itself. -/
def directionAt (s : Chars) : Option Chars := do
  let a ← ciLit "direction" s
  let b ← charOf "=:" a
  let c0 := dropWs b
  let c1 :=
    match c0 with
    | x :: xs =>
      if x = '(' && !(xs.takeWhile (fun ch => ch != ')')).isEmpty then xs else c0
    | [] => c0
  let (tok, _) ← runNonempty (fun ch => ch != ')') c1
  pure tok

/-- `RE_DIRECTION.search`. -/
def directionSearch (line : Chars) : Option Chars := scan directionAt line

/-! ## Event model and `parse_line` -/

/-- `EventType` from `event_parser.py`. -/
inductive EventType where
  | PVP_KILL
  | PVE_KILL
  | DEATH
  | DEATH_OTHER
  | VEHICLE_DESTROYED
  | SUICIDE
  | CORPSE
  | JUMP
  | DISCONNECT
  | ACTOR_STALL
  | FPS_KILL
  | FPS_DEATH
  | UNKNOWN
deriving DecidableEq

/-- `GameEvent`: a parsed game event with its optional per-kind fields. -/
structure GameEvent where
  event_type : EventType
  timestamp : String
  raw_line : String
  killer : Option String := none
  victim : Option String := none
  weapon : Option String := none
  damage_type : Option String := none
  ship : Option String := none
  location : Option String := none
  direction : Option String := none
  vehicle_name : Option String := none
  destruction_level : Option String := none
  jump_state : Option String := none
  is_player_involved : Bool := false
deriving DecidableEq

/-- `player_name.lower() if player_name else None`: an absent or empty
player name yields no local-player handle. -/
def playerLower (player_name : Option String) : Option String :=
  match player_name with
  | some p => if p = "" then none else some (lowerS p)
  | none => none

/-- The actor-death branch of `parse_line`, given the combined regex
captures: suicide check, then local-player / NPC classification,
including the source's (unreachable) NPC-vs-NPC suppression arm. -/
def classifyDeath (ts line : String) (player_name : Option String)
    (dm : DeathMatch) : Option GameEvent :=
  let victim := stripS (toStr dm.victim)
  let killer := stripS (toStr dm.killer)
  let damage_type := dm.damage.bind
    (fun dmg => if dmg.isEmpty then none else some (stripS (toStr dmg)))
  let zone := dm.zone.bind
    (fun z => if z.isEmpty then none else some (stripS (toStr z)))
  let weapon := (weaponSearch line.data).map toStr
  let ship :=
    match zone with
    | some z => extract_ship_name z
    | none => none
  let direction := (directionSearch line.data).map toStr
  let player_lower := playerLower player_name
  if lowerS killer = lowerS victim then
    some { event_type := .SUICIDE, timestamp := ts, raw_line := line,
           killer := some killer, victim := some victim,
           damage_type := damage_type, ship := ship,
           is_player_involved := decide (player_lower = some (lowerS killer)) }
  else
    let killerPC := decide (player_lower = some (lowerS killer))
    let victimPC := decide (player_lower = some (lowerS victim))
    let etOpt : Option EventType :=
      if victimPC then some .DEATH
      else if killerPC then some (if is_npc victim then .PVE_KILL else .PVP_KILL)
      else if is_npc victim then some .PVE_KILL
      else if is_npc killer && is_npc victim then none
      else some .DEATH_OTHER
    etOpt.map (fun et =>
      { event_type := et, timestamp := ts, raw_line := line,
        killer := some killer, victim := some victim, weapon := weapon,
        damage_type := damage_type, ship := ship, location := zone,
        direction := direction,
        is_player_involved := killerPC || victimPC })

/-- The corpse / jump / disconnect / actor-stall tail of `parse_line`. -/
def parseRest (ts line : String) (player_name : Option String) : Option GameEvent :=
  match corpseSearch line.data with
  | some n =>
    some { event_type := .CORPSE, timestamp := ts, raw_line := line,
           victim := some (toStr n),
           is_player_involved :=
             match player_name with
             | some p => decide (p ≠ "" ∧ lowerS (toStr n) = lowerS p)
             | none => false }
  | none =>
    match jumpSearch line.data with
    | some ab =>
      some { event_type := .JUMP, timestamp := ts, raw_line := line,
             jump_state := some (toStr ab.1 ++ " → " ++ toStr ab.2) }
    | none =>
      if disconnectMatches line.data then
        some { event_type := .DISCONNECT, timestamp := ts, raw_line := line }
      else if stallMatches line.data then
        some { event_type := .ACTOR_STALL, timestamp := ts, raw_line := line }
      else none

/-- `parse_line(line, player_name)`: a total function — parsing failure is
the `none` result, never an error.  `now` is the explicit wall-clock
parameter of the timestamp fallback. -/
def parse_line (now line : String) (player_name : Option String) : Option GameEvent :=
  if line.length < 10 then none
  else
    let ts := extract_timestamp now line
    match deathSearch line.data with
    | some dm => classifyDeath ts line player_name dm
    | none =>
      match vehiclePrimary line.data with
      | some vm =>
        some { event_type := .VEHICLE_DESTROYED, timestamp := ts, raw_line := line,
               vehicle_name := some ((extract_ship_name (toStr vm.1)).getD (toStr vm.1)),
               destruction_level :=
                 some (if toStr vm.2.2 = "2" then "full" else "soft") }
      | none =>
        match vehicleAlt line.data with
        | some vid =>
          if csContains line.data ("<Vehicle Destruction>".data) then
            some { event_type := .VEHICLE_DESTROYED, timestamp := ts, raw_line := line,
                   vehicle_name := some ((extract_ship_name (toStr vid)).getD (toStr vid)),
                   destruction_level := some "unknown" }
          else parseRest ts line player_name
        | none => parseRest ts line player_name

/-! ## Tailer model (`log_monitor.py`)

The filesystem is modelled as a map from paths to optional contents
(`none` = the file does not exist); sizes and offsets are character
counts (the log is ASCII, one byte per character).  Qt signals become
explicit result fields: the list of `new_line` payloads, the
`file_reset` flag, and the `monitoring_started` payload.  Text-mode
`f.read()` from `seek(offset)` returns the suffix of the content and
leaves `f.tell()` at the end of file. -/

abbrev FileSystem := String → Option String

/-- The mutable state of `LogMonitor`. -/
structure MonitorState where
  filepath : Option String
  file_offset : Nat
  file_size : Nat
  timer_on : Bool
deriving DecidableEq

/-- The freshly constructed monitor. -/
def initMonitor : MonitorState := ⟨none, 0, 0, false⟩

/-- Python `str.splitlines()` restricted to `\n` separators: each
newline terminates a segment; a final fragment is kept only when
non-empty. -/
def splitlinesChars (s : Chars) : List Chars := go [] s
where
  go (acc : Chars) : Chars → List Chars
    | [] => if acc.isEmpty then [] else [acc.reverse]
    | c :: cs => if c = '\n' then acc.reverse :: go [] cs else go (c :: acc) cs

/-- The lines `_poll` emits for `new_data = content[off:]`: split into
lines, strip each, keep the non-empty ones. -/
def emitLines (content : String) (off : Nat) : List String :=
  ((splitlinesChars (content.data.drop off)).map (fun l => toStr (trimChars l))).filter
    (fun l => l ≠ "")

/-- The outcome of one `_poll` (or `reprocess`) call. -/
structure PollResult where
  lines : List String
  reset : Bool
  state : MonitorState
deriving DecidableEq

/-- `LogMonitor._poll`: no-op when not started or the file is missing;
otherwise a size below the offset resets the offset to 0 and signals
`file_reset`, and any bytes beyond the (possibly reset) offset are read,
split and emitted, advancing the offset to the end of file. -/
def poll (fs : FileSystem) (st : MonitorState) : PollResult :=
  match st.filepath with
  | none => ⟨[], false, st⟩
  | some p =>
    match fs p with
    | none => ⟨[], false, st⟩
    | some content =>
      let current_size := content.data.length
      let reset : Bool := decide (current_size < st.file_offset)
      let off1 : Nat := if current_size < st.file_offset then 0 else st.file_offset
      if current_size > off1 then
        ⟨emitLines content off1, reset,
         { st with file_offset := current_size, file_size := current_size }⟩
      else
        ⟨[], reset, { st with file_offset := off1, file_size := current_size }⟩

/-- `LogMonitor.stop`: stop the timer, clear the path, zero the offset. -/
def stopMonitor (st : MonitorState) : MonitorState :=
  { st with timer_on := false, filepath := none, file_offset := 0 }

/-- The outcome of `LogMonitor.start`: the new state, the
`monitoring_started` signal payload, and whether the non-fatal
file-not-found message was printed. -/
structure StartResult where
  state : MonitorState
  monitoring_started : Option String
  warned : Bool
deriving DecidableEq

/-- `LogMonitor.start(filepath, read_existing)`: stop, record the path;
a missing file is reported with a printed message and no timer start;
otherwise the offset starts at 0 (`read_existing`) or at the current
size, `monitoring_started` is emitted and the poll timer starts. -/
def startMonitor (fs : FileSystem) (st : MonitorState) (filepath : String)
    (read_existing : Bool) : StartResult :=
  let st1 := stopMonitor st
  let st2 := { st1 with filepath := some filepath }
  match fs filepath with
  | none => ⟨st2, none, true⟩
  | some content =>
    let sz := content.data.length
    ⟨{ st2 with file_offset := if read_existing then 0 else sz,
                file_size := sz, timer_on := true },
     some filepath, false⟩

/-- `LogMonitor.reprocess`: when a path is set, reset the offset to 0 and
run one `_poll`. -/
def reprocess (fs : FileSystem) (st : MonitorState) : PollResult :=
  match st.filepath with
  | some _ => poll fs { st with file_offset := 0 }
  | none => ⟨[], false, st⟩

/-! ## Concrete instances used by the claim theorems and witnesses -/

/-- A death line in which killer and victim are distinct NPCs
(`NPC_` substrings) and no player name is configured. -/
def npcVsNpcLine : String :=
  "<Actor Death> CActor::Kill: " ++ q "NPC_Pirate_03" ++ " in zone " ++ q "X" ++
  " killed by " ++ q "NPC_Pirate_02" ++ " with damage type " ++ q "Bullet"

/-- A well-formed suicide line: killer equals victim. -/
def suicideLine : String :=
  "<Actor Death> CActor::Kill: " ++ q "PlayerX" ++ " [1] in zone " ++ q "Crusader_01" ++
  " killed by " ++ q "PlayerX" ++ " [1] with damage type " ++ q "Suicide"

/-- A death line whose quoted killer and victim are a single space, so both
strip to the empty string. -/
def blankSuicideLine : String :=
  "<Actor Death> CActor::Kill: " ++ q " " ++ " killed by " ++ q " " ++ " x"

/-- A vehicle-destruction line with an explicit `level 1 to 2` clause. -/
def vdFullLine : String :=
  "<Vehicle Destruction> x " ++ q "ORIG_890J_01" ++ " at level 1 to 2"

/-- A vehicle-destruction line with a vehicle id but no level clause. -/
def vdUnknownLine : String :=
  "<Vehicle Destruction> x " ++ q "DRAK_Cutter_01" ++ " boom"

/-- A filesystem with one grown log file whose final line has no
terminating newline. -/
def fsGrown : FileSystem := fun pp => if pp = "log" then some "abcdefghij\nxyz" else none

/-- A started tailer at offset 0 on `fsGrown`. -/
def stGrown : MonitorState := ⟨some "log", 0, 0, true⟩

/-- A filesystem with one log file that contains a blank line. -/
def fsBlank : FileSystem := fun pp => if pp = "log" then some "ab\n\ncd\n" else none

/-- A started tailer on `fsBlank` whose offset exceeds the file size
(as after a truncation). -/
def stBlank : MonitorState := ⟨some "log", 999, 8, true⟩

/-- A filesystem for the start/witness scenarios. -/
def fsStart : FileSystem := fun pp => if pp = "game.log" then some "abcdefghij\nxyz" else none

/-! ## Claim theorems -/

/-- C10: for every line shorter than 10 characters (including the empty
line) and every player name, `parse_line` returns no event — the length
guard runs before any tag-marker pattern is tried. -/
theorem c10_short_line_no_event (now line : String) (player : Option String)
    (h : line.length < 10) : parse_line now line player = none := by
  unfold parse_line
  rw [if_pos h]

/-- Witness for C10 at the 8-character line `<Corpse>`, which carries a
recognized tag marker yet yields no event. -/
theorem c10_short_line_no_event_witness :
    parse_line "12:00:00" "<Corpse>" none = none :=
  c10_short_line_no_event "12:00:00" "<Corpse>" none (by decide)

/-- C1 (code bug): on a death line whose killer `NPC_Pirate_02` and victim
`NPC_Pirate_03` are distinct, both match the NPC heuristic, and no player
name is configured, the code returns a `PVE_KILL` event instead of
suppressing the line: the `is_npc(victim)` arm fires before the
NPC-vs-NPC arm, so the source's `return None  # NPC vs NPC, skip` arm is
unreachable. -/
theorem c1_npc_vs_npc_eval :
    is_npc "NPC_Pirate_02" = true ∧ is_npc "NPC_Pirate_03" = true ∧
    (parse_line "12:00:00" npcVsNpcLine none).map GameEvent.event_type =
      some EventType.PVE_KILL := by decide

/-- C2 (counterexample): on a started tailer at offset 0 over the grown
file `"abcdefghij\nxyz"`, `poll` reports the trailing fragment `"xyz"`,
which is not terminated by a newline, and advances the offset to 14 (the
end of file) rather than 11 (past the last complete line): `_poll` calls
`f.read()` + `splitlines()` with no retention of a partial last line. -/
theorem c2_partial_line_reported :
    (poll fsGrown stGrown).lines = ["abcdefghij", "xyz"] ∧
    (poll fsGrown stGrown).state.file_offset = 14 := by decide

/-- C2 (amended): on a started tailer over an existing file that has grown
past the offset, `poll` emits every line of the appended region split on
newlines — each stripped, blank lines dropped, and including any trailing
content not terminated by a newline — signals no reset, and advances the
offset to the current end of file. -/
theorem c2_poll_reads_to_eof (fs : FileSystem) (st : MonitorState)
    (p content : String) (hp : st.filepath = some p) (hc : fs p = some content)
    (hgrow : st.file_offset < content.data.length) :
    (poll fs st).lines = emitLines content st.file_offset ∧
    (poll fs st).reset = false ∧
    (poll fs st).state.file_offset = content.data.length := by
  unfold poll
  have h1 : ¬ content.data.length < st.file_offset := by omega
  simp only [hp, hc, if_neg h1, decide_eq_false h1, gt_iff_lt, if_pos hgrow]
  exact ⟨trivial, trivial, trivial⟩

/-- Witness for C2 (amended) on `fsGrown`/`stGrown`. -/
theorem c2_poll_reads_to_eof_witness :
    (poll fsGrown stGrown).lines = emitLines "abcdefghij\nxyz" 0 ∧
    (poll fsGrown stGrown).reset = false ∧
    (poll fsGrown stGrown).state.file_offset = 14 :=
  c2_poll_reads_to_eof fsGrown stGrown "log" "abcdefghij\nxyz" rfl rfl (by decide)

/-- C4: for a started tailer over an existing file, a single `poll` never
decreases the offset unless the current size has dropped below it; in the
truncation case the reset signal is emitted (exactly once per poll, the
signal being fired in one place), the offset is zeroed before any line is
read, and the now-smaller file's content is read from the start within
that same call, leaving the offset at the new end of file. -/
theorem c4_offset_monotone_reset (fs : FileSystem) (st : MonitorState)
    (p content : String) (hp : st.filepath = some p) (hc : fs p = some content) :
    (st.file_offset ≤ content.data.length →
      (poll fs st).reset = false ∧
      st.file_offset ≤ (poll fs st).state.file_offset)
    ∧ (content.data.length < st.file_offset →
      (poll fs st).reset = true ∧
      (poll fs st).lines = emitLines content 0 ∧
      (poll fs st).state.file_offset = content.data.length) := by
  constructor
  · intro hle
    have h1 : ¬ content.data.length < st.file_offset := by omega
    unfold poll
    simp only [hp, hc, if_neg h1, decide_eq_false h1, gt_iff_lt]
    by_cases h2 : st.file_offset < content.data.length
    · simp only [if_pos h2]
      exact ⟨trivial, by omega⟩
    · simp only [if_neg h2]
      exact ⟨trivial, le_refl _⟩
  · intro hlt
    unfold poll
    simp only [hp, hc, if_pos hlt, decide_eq_true_eq, gt_iff_lt]
    by_cases h2 : 0 < content.data.length
    · simp only [if_pos h2, decide_eq_true hlt]
      exact ⟨trivial, trivial, trivial⟩
    · have hz : content.data.length = 0 := by omega
      have hdata : content.data = [] := List.length_eq_zero.mp hz
      simp only [if_neg h2, decide_eq_true hlt]
      refine ⟨trivial, ?_, hz.symm⟩
      simp [emitLines, hdata, splitlinesChars, splitlinesChars.go]

/-- Witness for C4 on `fsBlank`/`stBlank` (size 7 below offset 999): the
truncation branch fires. -/
theorem c4_offset_monotone_reset_witness :
    (poll fsBlank stBlank).reset = true ∧
    (poll fsBlank stBlank).lines = emitLines "ab\n\ncd\n" 0 ∧
    (poll fsBlank stBlank).state.file_offset = 7 :=
  (c4_offset_monotone_reset fsBlank stBlank "log" "ab\n\ncd\n" rfl rfl).2 (by decide)

/-- C5 (counterexample): on `fsBlank`, `reprocess` emits only
`["ab", "cd"]` although the file's lines are `["ab", "", "cd"]`: the
blank line is a line of the file that is not re-emitted (each emitted
line is also stripped first), so `reprocess` does not re-emit *every*
line of the file. No reset is signalled. -/
theorem c5_blank_line_skipped :
    (reprocess fsBlank stBlank).lines = ["ab", "cd"] ∧
    (reprocess fsBlank stBlank).reset = false ∧
    (splitlinesChars ("ab\n\ncd\n").data).map toStr = ["ab", "", "cd"] := by decide

/-- C5 (amended): for every started tailer over an existing file,
`reprocess` resets the offset to 0 and performs one poll that re-emits
every non-blank (whitespace-stripped) line of the file, never emits a
reset notification, and leaves the offset at the end of file. -/
theorem c5_reprocess_amended (fs : FileSystem) (st : MonitorState)
    (p content : String) (hp : st.filepath = some p) (hc : fs p = some content) :
    (reprocess fs st).reset = false ∧
    (reprocess fs st).lines = emitLines content 0 ∧
    (reprocess fs st).state.file_offset = content.data.length := by
  unfold reprocess
  have h1 : ¬ content.data.length < 0 := by omega
  simp only [hp, poll, hc, if_neg h1, decide_eq_false h1, gt_iff_lt]
  by_cases h2 : 0 < content.data.length
  · simp only [if_pos h2]
    exact ⟨trivial, trivial, trivial⟩
  · have hz : content.data.length = 0 := by omega
    have hdata : content.data = [] := List.length_eq_zero.mp hz
    simp only [if_neg h2]
    refine ⟨trivial, ?_, hz.symm⟩
    simp [emitLines, hdata, splitlinesChars, splitlinesChars.go]

/-- Witness for C5 (amended) on `fsBlank`/`stBlank`. -/
theorem c5_reprocess_amended_witness :
    (reprocess fsBlank stBlank).reset = false ∧
    (reprocess fsBlank stBlank).lines = emitLines "ab\n\ncd\n" 0 ∧
    (reprocess fsBlank stBlank).state.file_offset = 7 :=
  c5_reprocess_amended fsBlank stBlank "log" "ab\n\ncd\n" rfl rfl

/-- C8: `start(path, readExisting)` on an existing file sets the offset to
0 when `readExisting` is true and to the current file size otherwise,
emits `monitoring_started` and starts the poll timer; on a missing path
the failure is reported non-fatally (the embedding is a total function:
only the printed warning records it) and no monitoring begins — no
timer, no `monitoring_started` signal. -/
theorem c8_start_offset_and_missing (fs : FileSystem) (st : MonitorState)
    (path : String) (readExisting : Bool) :
    (∀ content, fs path = some content →
      (startMonitor fs st path readExisting).state.file_offset =
        (if readExisting then 0 else content.data.length) ∧
      (startMonitor fs st path readExisting).monitoring_started = some path ∧
      (startMonitor fs st path readExisting).state.timer_on = true ∧
      (startMonitor fs st path readExisting).warned = false)
    ∧ (fs path = none →
      (startMonitor fs st path readExisting).monitoring_started = none ∧
      (startMonitor fs st path readExisting).state.timer_on = false ∧
      (startMonitor fs st path readExisting).warned = true) := by
  constructor
  · intro content hcon
    simp only [startMonitor, stopMonitor, hcon]
    exact ⟨trivial, trivial, trivial, trivial⟩
  · intro hmiss
    simp only [startMonitor, stopMonitor, hmiss]
    exact ⟨trivial, trivial, trivial⟩

/-- Witness for C8 on `fsStart`: an existing file with `readExisting`
false starts at the file size, and a missing path starts no monitoring. -/
theorem c8_start_offset_and_missing_witness :
    ((startMonitor fsStart initMonitor "game.log" false).state.file_offset = 14 ∧
     (startMonitor fsStart initMonitor "game.log" false).state.timer_on = true) ∧
    (startMonitor fsStart initMonitor "missing.log" false).state.timer_on = false := by
  have h1 := (c8_start_offset_and_missing fsStart initMonitor "game.log" false).1
    "abcdefghij\nxyz" rfl
  have h2 := (c8_start_offset_and_missing fsStart initMonitor "missing.log" false).2 rfl
  exact ⟨⟨by rw [h1.1]; decide, h1.2.2.1⟩, h2.2.1⟩

/-- C9: ship-name resolution consults the `SHIP_LOOKUP` substring table
first, case-insensitively, the first entry in table order winning
(`List.find?` returns the first satisfying entry); only when no
ship-model substring matches is the `VEHICLE_NAMES` manufacturer-prefix
table consulted for `PREFIX_Remainder`-shaped ids, synthesizing
`"<Manufacturer> <Remainder>"` (the remainder being the second
underscore-separated component, the result stripped); and in particular
`"ORIG_890J_01"` resolves via the `"890"` ship-lookup entry to
`"890 Jump"`, not via the `ORIG → Origin` prefix fallback. -/
theorem c9_ship_name_resolution :
    (∀ z kv, SHIP_LOOKUP.find? (fun e => ciContains z.data e.1.data) = some kv →
      z ≠ "" → extract_ship_name z = some kv.2)
    ∧ (∀ z kv, SHIP_LOOKUP.find? (fun e => ciContains z.data e.1.data) = none →
      VEHICLE_NAMES.find? (fun e => (e.1 ++ "_").data.isPrefixOf z.data) = some kv →
      z ≠ "" →
      extract_ship_name z =
        some (stripS (kv.2 ++ " " ++ toStr ((splitOnChar '_' z.data).getD 1 []))))
    ∧ extract_ship_name "ORIG_890J_01" = some "890 Jump" := by
  refine ⟨?_, ?_, by decide⟩
  · intro z kv hfind hz
    unfold extract_ship_name
    rw [if_neg hz, hfind]
  · intro z kv hnone hfind hz
    have hpred : ((kv.1 ++ "_").data.isPrefixOf z.data) = true := by
      have h0 := List.find?_some hfind
      simpa using h0
    have hpre : (kv.1 ++ "_").data <+: z.data := List.isPrefixOf_iff_prefix.mp hpred
    have hmem : '_' ∈ z.data := by
      refine hpre.subset ?_
      rw [String.data_append]
      exact List.mem_append_right _ (by decide)
    have hcontains : z.data.contains '_' = true := List.elem_eq_true_of_mem hmem
    unfold extract_ship_name
    rw [if_neg hz, hnone, hfind]
    simp only [hcontains, if_pos]

/-- Witness for C9: the prefix-fallback arm applied to `"ORIG_TEST"`,
whose id matches no ship-model substring. -/
theorem c9_ship_name_resolution_witness :
    extract_ship_name "ORIG_TEST" = some "Origin TEST" := by
  have h := c9_ship_name_resolution.2.1 "ORIG_TEST" ("ORIG", "Origin")
    (by decide) (by decide) (by decide)
  rw [h]; decide

/-- Helper for C6: the corpse/jump/disconnect/stall tail yields no event
when all four searches fail. -/
theorem parseRest_eq_none (ts line : String) (player : Option String)
    (hc : corpseSearch line.data = none) (hj : jumpSearch line.data = none)
    (hdc : disconnectMatches line.data = false)
    (hs : stallMatches line.data = false) :
    parseRest ts line player = none := by
  unfold parseRest
  simp only [hc, hj, hdc, hs, Bool.false_eq_true, if_false]

/-- C6: `parse_line` is a total function — no error value exists in its
codomain, parsing failure is the `none` result — and whenever every
pattern search of every category fails (no tag marker matches, or a tag
marker is present but its field-extraction patterns all fail, so the
combined marker-plus-fields matchers return nothing), it yields no event
for every wall-clock string and every player name. -/
theorem c6_unmatched_no_event (line : String)
    (hd : deathSearch line.data = none)
    (hv : vehiclePrimary line.data = none)
    (hva : vehicleAlt line.data = none ∨
      csContains line.data ("<Vehicle Destruction>".data) = false)
    (hc : corpseSearch line.data = none)
    (hj : jumpSearch line.data = none)
    (hdc : disconnectMatches line.data = false)
    (hs : stallMatches line.data = false) :
    ∀ now player, parse_line now line player = none := by
  intro now player
  by_cases hlen : line.length < 10
  · unfold parse_line
    rw [if_pos hlen]
  · unfold parse_line
    rw [if_neg hlen]
    rcases hva with hva | hva
    · simp only [hd, hv, hva]
      exact parseRest_eq_none _ _ _ hc hj hdc hs
    · simp only [hd, hv]
      cases hAlt : vehicleAlt line.data with
      | none => exact parseRest_eq_none _ _ _ hc hj hdc hs
      | some vid =>
        simp only [hva, Bool.false_eq_true, if_false]
        exact parseRest_eq_none _ _ _ hc hj hdc hs

/-- Witness for C6 on a line carrying no recognized tag marker. -/
theorem c6_unmatched_no_event_witness :
    parse_line "12:00:00" "hello there world" (some "PlayerX") = none :=
  c6_unmatched_no_event "hello there world" (by decide) (by decide)
    (Or.inl (by decide)) (by decide) (by decide) (by decide) (by decide)
    "12:00:00" (some "PlayerX")

/-- C3 (counterexample): on `blankSuicideLine` both extracted names strip
to the empty string, so killer equals victim case-insensitively and a
Suicide event is returned with `killer = some ""`; the player name passed
is present (`some ""`) and matches the killer case-insensitively, yet
`is_player_involved` is `false` — the code treats an empty player name
as absent (`player_name.lower() if player_name else None`), refuting the
claim's "present" as stated. -/
theorem c3_empty_player_not_involved :
    (parse_line "12:00:00" blankSuicideLine (some "")).map
        (fun e => (e.event_type, e.killer, e.is_player_involved)) =
      some (EventType.SUICIDE, some "", false) ∧
    lowerS "" = lowerS "" := by decide

/-- C3 (amended): for every death line whose extracted killer equals the
extracted victim under case-insensitive comparison, `parse_line` returns
a Suicide event regardless of whether the name matches the NPC heuristic
(no NPC hypothesis appears below), and the event's `is_player_involved`
flag is true iff the player name is present, non-empty, and matches the
killer case-insensitively. -/
theorem c3_suicide_amended (now line : String) (player : Option String)
    (dm : DeathMatch)
    (hlen : 10 ≤ line.length)
    (hm : deathSearch line.data = some dm)
    (heq : lowerS (stripS (toStr dm.killer)) = lowerS (stripS (toStr dm.victim))) :
    (parse_line now line player).map (fun e => (e.event_type, e.is_player_involved)) =
      some (EventType.SUICIDE,
        match player with
        | some p => decide (p ≠ "" ∧ lowerS p = lowerS (stripS (toStr dm.killer)))
        | none => false) := by
  have h10 : ¬ line.length < 10 := by omega
  unfold parse_line
  rw [if_neg h10]
  simp only [hm]
  unfold classifyDeath
  simp only [if_pos heq, Option.map_some]
  refine congrArg some (Prod.ext rfl ?_)
  cases player with
  | none => simp [playerLower]
  | some p =>
    by_cases hp : p = ""
    · simp [playerLower, hp]
    · simp only [playerLower, if_neg hp, hp, ne_eq, not_false_iff, true_and]
      rcases eq_or_ne (lowerS p) (lowerS (stripS (toStr dm.killer))) with he | he
      · simp [he]
      · simp [he]

/-- Witness for C3 (amended) on `suicideLine` with the matching player
`"PlayerX"`. -/
theorem c3_suicide_amended_witness :
    (parse_line "12:00:00" suicideLine (some "PlayerX")).map
        (fun e => (e.event_type, e.is_player_involved)) =
      some (EventType.SUICIDE, true) := by
  have h := c3_suicide_amended "12:00:00" suicideLine (some "PlayerX")
    ⟨"PlayerX".data, "PlayerX".data, some "Suicide".data, none⟩
    (by decide) (by decide) (by decide)
  rw [h]
  decide

/-- C7: for a line that reaches the vehicle-destruction category (the
death patterns, tried first, fail): when the primary pattern with its
explicit `level N to M` clause matches, the returned VehicleDestroyed
event's destruction level is `"full"` iff the captured target-level
literal is `"2"` and `"soft"` otherwise; when the primary pattern fails
but the vehicle-id-only secondary pattern matches and the line carries
the (case-sensitive) `<Vehicle Destruction>` tag marker, the destruction
level is `"unknown"`. -/
theorem c7_vehicle_destruction_levels (now line : String) (player : Option String)
    (hlen : 10 ≤ line.length) (hd : deathSearch line.data = none) :
    (∀ vm, vehiclePrimary line.data = some vm →
      (parse_line now line player).map (fun e => (e.event_type, e.destruction_level)) =
        some (EventType.VEHICLE_DESTROYED,
          some (if toStr vm.2.2 = "2" then "full" else "soft")))
    ∧ (vehiclePrimary line.data = none →
      ∀ vid, vehicleAlt line.data = some vid →
      csContains line.data ("<Vehicle Destruction>".data) = true →
      (parse_line now line player).map (fun e => (e.event_type, e.destruction_level)) =
        some (EventType.VEHICLE_DESTROYED, some "unknown")) := by
  have h10 : ¬ line.length < 10 := by omega
  constructor
  · intro vm hvm
    unfold parse_line
    rw [if_neg h10]
    simp only [hd, hvm]
    rfl
  · intro hvp vid hva hcs
    unfold parse_line
    rw [if_neg h10]
    simp only [hd, hvp, hva, hcs, if_true]
    rfl

/-- Witness for C7, primary arm, on `vdFullLine` (`level 1 to 2` gives
`"full"`). -/
theorem c7_vehicle_destruction_levels_witness :
    (parse_line "12:00:00" vdFullLine none).map
        (fun e => (e.event_type, e.destruction_level)) =
      some (EventType.VEHICLE_DESTROYED, some "full") := by
  have h := (c7_vehicle_destruction_levels "12:00:00" vdFullLine none
    (by decide) (by decide)).1 ("ORIG_890J_01".data, "1".data, "2".data) (by decide)
  rw [h]
  decide
